import Mathlib

/-
Verification development for the eat-and-pay backend (Go).

The Go services keep their state in in-process maps guarded by a mutex;
every operation is a synchronous read-modify-write of those maps.  We embed
each service shallowly: Go maps become association lists (`List (String × β)`,
first binding for a key wins, which determinises Go's unspecified map
iteration order), machine `int` becomes `Int`, `time.Time` becomes an `Int`
nanosecond timestamp (calendar accessors are computed from it in UTC), and a
Go func that can return a non-nil `error` becomes a function into
`Except ErrKind`.  Functions that mutate their receiver return the new state
alongside the result, including on error paths, so that a mutation performed
before an error return is visible in the model.  Sources of nondeterminism
(generated UUIDs, generated phone numbers, the clock) are passed in as
explicit arguments.
-/

namespace EatAndPay

/-- Lookup in an association list standing in for a Go map read `m[k]`. -/
def lookupKey (k : String) : List (String × β) → Option β
  | [] => none
  | (k1, v) :: rest => if k1 = k then some v else lookupKey k rest

/-- Insert-or-replace standing in for a Go map write `m[k] = v`. -/
def updateKey (k : String) (v : β) : List (String × β) → List (String × β)
  | [] => [(k, v)]
  | (k1, v1) :: rest => if k1 = k then (k, v) :: rest else (k1, v1) :: updateKey k v rest

/-- Key removal standing in for Go `delete(m, k)`. -/
def removeKey (k : String) : List (String × β) → List (String × β)
  | [] => []
  | (k1, v1) :: rest => if k1 = k then removeKey k rest else (k1, v1) :: removeKey k rest

/-- Modelled from the spec: the error taxonomy of `models.ErrBadRequest`,
`models.ErrNotFound`, `models.ErrForbidden` and the internal-server kind
(§7 of the spec); the `models` declarations of these sentinel errors are not
part of the provided sources, only their use sites are.  Go error wrapping
with `fmt.Errorf("...: %w", err)` preserves the kind, so an error value is
embedded as its kind alone. -/
inductive ErrKind where
  | badRequest
  | notFound
  | forbidden
  | internal
deriving DecidableEq, Repr

/-- Modelled from the spec: `models.Account` — `{id, type ∈ {card, savings},
balance: integer minor-units}` (spec §3); the struct declaration itself is
missing from the provided sources, its field use sites are in
`internal/service/wallet.go`. -/
structure Account where
  id : String
  accountType : String
  balance : Int
deriving DecidableEq, Repr

/-- Modelled from the spec: `models.Transaction` — `{amount: signed integer,
title: string, timestamp, icon: optional string}` (spec §3). -/
structure Transaction where
  amount : Int
  title : String
  time : Int
  icon : String
deriving DecidableEq, Repr

/-- Modelled from the spec: the body of `models.TopupRequest` as used by
`WalletService.TopupAccount` (`req.AccountID`, `req.Amount`). -/
structure TopupRequest where
  accountID : String
  amount : Int
deriving DecidableEq, Repr

/-- Modelled from the spec: the body of `models.TransferRequest` as used by
`WalletService.TransferMoney` (`req.FromAccountID`, `req.ToPhoneNumber`,
`req.Amount`). -/
structure TransferRequest where
  fromAccountID : String
  toPhoneNumber : String
  amount : Int
deriving DecidableEq, Repr

/-- The `models.UserProfile` struct (`internal/models/models.go`). -/
structure UserProfile where
  phone : String
  name : String
  birthday : String
  image : String
deriving DecidableEq, Repr

/-- State of `service.UserData` (`internal/service/user_data.go`):
`profileInfo map[string]*models.UserProfile`. -/
structure UserDataState where
  profileInfo : List (String × UserProfile)
deriving DecidableEq, Repr

/-- State of `service.WalletService` (`internal/service/wallet.go`):
`accounts`, `transactions`, `dailyTopups` and the `userPhones` cache. -/
structure WalletState where
  accounts : List (String × List (String × Account))
  transactions : List (String × List Transaction)
  dailyTopups : List (String × List (String × Int))
  userPhones : List (String × String)
deriving DecidableEq, Repr

/-- Value of the Go read `ws.dailyTopups[userID][day]` (missing keys read as
zero, as for a Go map of `int`). -/
def dailyTotal (ws : WalletState) (userID day : String) : Int :=
  (lookupKey day ((lookupKey userID ws.dailyTopups).getD [])).getD 0

/-- Value of the Go read `ws.accounts[userID][accountID].Balance`, as an
`Option` (none when either map lookup misses). -/
def accountBalance (ws : WalletState) (userID accountID : String) : Option Int :=
  (lookupKey accountID ((lookupKey userID ws.accounts).getD [])).map (·.balance)

/-- Value of the Go read `ws.transactions[userID]` (missing key reads as the
empty log). -/
def txLog (ws : WalletState) (userID : String) : List Transaction :=
  (lookupKey userID ws.transactions).getD []

/-- `WalletService.TopupAccount` (`internal/service/wallet.go:173`).
`userID` is the authenticated caller id, `today` the formatted current date
and `now` the clock reading; the state is returned on every path so that
mutations preceding an error return stay observable. -/
def TopupAccount (userID today : String) (now : Int) (req : TopupRequest)
    (ws : WalletState) : Except ErrKind Int × WalletState :=
  -- if ws.dailyTopups[userID] == nil { ws.dailyTopups[userID] = make(...) }
  let ws1 : WalletState :=
    match lookupKey userID ws.dailyTopups with
    | none => { ws with dailyTopups := updateKey userID [] ws.dailyTopups }
    | some _ => ws
  if dailyTotal ws1 userID today + req.amount > 1000 then
    (Except.error ErrKind.badRequest, ws1)
  else
    match lookupKey userID ws1.accounts with
    | none => (Except.error ErrKind.notFound, ws1)
    | some userAccounts =>
      match lookupKey req.accountID userAccounts with
      | none => (Except.error ErrKind.notFound, ws1)
      | some account =>
        let newBalance := account.balance + req.amount
        let ws2 := { ws1 with
          accounts := updateKey userID
            (updateKey req.accountID { account with balance := newBalance } userAccounts)
            ws1.accounts }
        let ws3 := { ws2 with
          dailyTopups := updateKey userID
            (updateKey today (dailyTotal ws1 userID today + req.amount)
              ((lookupKey userID ws1.dailyTopups).getD []))
            ws2.dailyTopups }
        let tx : Transaction :=
          { amount := req.amount, title := "Пополнение счета", time := now, icon := "" }
        let ws4 := { ws3 with
          transactions := updateKey userID (txLog ws3 userID ++ [tx]) ws3.transactions }
        (Except.ok newBalance, ws4)

/-- `UserData.GetProfile` (`internal/service/user_data.go:41`): returns the
stored profile, creating one with a generated phone number on first access.
The random generator `generateRandomPhoneNumber` is modelled by the explicit
`freshPhone` argument.  The Go function always returns a nil error; the
`Except` wrapper mirrors its `(*models.UserProfile, error)` signature. -/
def GetProfile (freshPhone userID : String) (ud : UserDataState) :
    Except ErrKind (UserProfile × UserDataState) :=
  match lookupKey userID ud.profileInfo with
  | some p => Except.ok (p, ud)
  | none =>
    let p : UserProfile := { phone := freshPhone, name := "", birthday := "", image := "" }
    Except.ok (p, { profileInfo := updateKey userID p ud.profileInfo })

/-- `UserData.GetUserIDByPhone` (`internal/service/user_data.go:142`): scans
`profileInfo` for a profile with the given phone; the association-list order
determinises Go's unspecified map iteration order. -/
def GetUserIDByPhone (phone : String) (ud : UserDataState) : Option String :=
  (ud.profileInfo.find? (fun p => p.2.phone = phone)).map (·.1)

/-- `WalletService.getOrCreateUserPhone` (`internal/service/wallet.go:42`):
serves the phone from the `userPhones` cache, otherwise fetches the profile
from `UserData` and caches its phone. -/
def getOrCreateUserPhone (freshPhone userID : String) (ws : WalletState)
    (ud : UserDataState) : Except ErrKind (String × WalletState × UserDataState) :=
  match lookupKey userID ws.userPhones with
  | some phone => Except.ok (phone, ws, ud)
  | none =>
    match GetProfile freshPhone userID ud with
    | Except.error e => Except.error e
    | Except.ok (profile, ud1) =>
      Except.ok (profile.phone,
        { ws with userPhones := updateKey userID profile.phone ws.userPhones }, ud1)

/-- `WalletService.TransferMoney` (`internal/service/wallet.go:223`).
`fromUserID` is the authenticated caller, `now` the clock reading and
`freshPhone` the phone-number generator oracle consumed if the sender's
phone has to be created.  Both the wallet state and the user-data state are
returned on every path.  In the success branch `toUserID ≠ fromUserID` is
already established, so updating the recipient map entry after the sender
entry matches the Go pointer mutations of two distinct accounts. -/
def TransferMoney (fromUserID freshPhone : String) (now : Int)
    (req : TransferRequest) (ws : WalletState) (ud : UserDataState) :
    Except ErrKind Int × WalletState × UserDataState :=
  match lookupKey fromUserID ws.accounts with
  | none => (Except.error ErrKind.notFound, ws, ud)
  | some fromUserAccounts =>
    match lookupKey req.fromAccountID fromUserAccounts with
    | none => (Except.error ErrKind.notFound, ws, ud)
    | some fromAccount =>
      if fromAccount.balance < req.amount then
        (Except.error ErrKind.badRequest, ws, ud)
      else
        match GetUserIDByPhone req.toPhoneNumber ud with
        | none => (Except.error ErrKind.notFound, ws, ud)
        | some toUserID =>
          if toUserID = fromUserID then
            (Except.error ErrKind.badRequest, ws, ud)
          else
            match lookupKey toUserID ws.accounts with
            | none => (Except.error ErrKind.notFound, ws, ud)
            | some toUserAccounts =>
              -- `for _, account := range toUserAccounts { toAccount = account; break }`
              match toUserAccounts.head? with
              | none => (Except.error ErrKind.notFound, ws, ud)
              | some (toAccountID, toAccount) =>
                let fromAccount1 := { fromAccount with balance := fromAccount.balance - req.amount }
                let toAccount1 := { toAccount with balance := toAccount.balance + req.amount }
                let accounts1 :=
                  updateKey fromUserID (updateKey req.fromAccountID fromAccount1 fromUserAccounts)
                    ws.accounts
                let ws1 := { ws with
                  accounts := updateKey toUserID (updateKey toAccountID toAccount1 toUserAccounts) accounts1 }
                let fromTx : Transaction :=
                  { amount := -req.amount,
                    title := "Перевод на номер " ++ req.toPhoneNumber,
                    time := now, icon := "" }
                let ws2 := { ws1 with
                  transactions := updateKey fromUserID (txLog ws1 fromUserID ++ [fromTx]) ws1.transactions }
                match getOrCreateUserPhone freshPhone fromUserID ws2 ud with
                | Except.error e => (Except.error e, ws2, ud)
                | Except.ok (fromUserPhone, ws3, ud1) =>
                  let toTx : Transaction :=
                    { amount := req.amount,
                      title := "Перевод от номера " ++ fromUserPhone,
                      time := now, icon := "" }
                  let ws4 := { ws3 with
                    transactions := updateKey toUserID (txLog ws3 toUserID ++ [toTx]) ws3.transactions }
                  (Except.ok fromAccount1.balance, ws4, ud1)

/-- Folding a sequence of top-up requests by one user on one calendar day
through `TopupAccount`, keeping only the state. -/
def runTopups (userID today : String) (now : Int) (ws : WalletState) :
    List TopupRequest → WalletState
  | [] => ws
  | r :: rest => runTopups userID today now (TopupAccount userID today now r ws).2 rest

/-- Sum of the amounts of the accepted (successfully applied) top-ups in a
request sequence, replayed from `ws`. -/
def acceptedTopupSum (userID today : String) (now : Int) (ws : WalletState) :
    List TopupRequest → Int
  | [] => 0
  | r :: rest =>
    (if (TopupAccount userID today now r ws).1.isOk then r.amount else 0)
      + acceptedTopupSum userID today now (TopupAccount userID today now r ws).2 rest

/-- Every account balance stored in the wallet state is non-negative. -/
def allBalancesNonneg (ws : WalletState) : Prop :=
  ∀ p ∈ ws.accounts, ∀ q ∈ p.2, 0 ≤ q.2.balance

instance (ws : WalletState) : Decidable (allBalancesNonneg ws) := by
  unfold allBalancesNonneg; infer_instance

/- Calendar arithmetic.  Go's `time.Time` accessors (`Day`, `Month`, `Hour`,
`Minute`, and the `"2006-01-02"` date format) are part of the Go standard
library, not of this repository; we compute them from the `Int` nanosecond
timestamp with the standard civil-from-days algorithm, in UTC (the fixed
timezone offset does not matter to any claim: the claims only use that the
formatted strings are non-empty / used as grouping keys). -/

def nsPerMinute : Int := 60000000000

def nsPerHour : Int := 3600000000000

def nsPerDay : Int := 86400000000000

/-- Gregorian `(year, month, day)` of a day number counted from 1970-01-01
(`Int` division here is Euclidean, which coincides with floor division for
the positive divisors used). -/
def civilFromDays (z0 : Int) : Int × Int × Int :=
  let z := z0 + 719468
  let era := z / 146097
  let doe := z - era * 146097
  let yoe := (doe - doe / 1460 + doe / 36524 - doe / 146096) / 365
  let y := yoe + era * 400
  let doy := doe - (365 * yoe + yoe / 4 - yoe / 100)
  let mp := (5 * doy + 2) / 153
  let d := doy - (153 * mp + 2) / 5 + 1
  let m := mp + (if mp < 10 then 3 else -9)
  (y + (if m ≤ 2 then 1 else 0), m, d)

def timeYear (t : Int) : Int := (civilFromDays (t / nsPerDay)).1

def timeMonth (t : Int) : Int := (civilFromDays (t / nsPerDay)).2.1

def timeDay (t : Int) : Int := (civilFromDays (t / nsPerDay)).2.2

def timeHour (t : Int) : Int := (t - (t / nsPerDay) * nsPerDay) / nsPerHour

def timeMinute (t : Int) : Int :=
  (t - (t / nsPerDay) * nsPerDay - timeHour t * nsPerHour) / nsPerMinute

/-- The `months` map of `formatRu` (`internal/service/order.go:129`); a Go
map read of a missing month yields the empty string. -/
def monthsRu (m : Int) : String :=
  if m = 1 then "января" else if m = 2 then "февраля" else if m = 3 then "марта"
  else if m = 4 then "апреля" else if m = 5 then "мая" else if m = 6 then "июня"
  else if m = 7 then "июля" else if m = 8 then "августа" else if m = 9 then "сентября"
  else if m = 10 then "октября" else if m = 11 then "ноября" else if m = 12 then "декабря"
  else ""

/-- Rendering of `%02d`. -/
def pad2 (n : Int) : String :=
  if 0 ≤ n ∧ n < 10 then "0" ++ toString n else toString n

/-- Zero-padding of a year to four digits, as Go's `"2006"` format verb. -/
def pad4 (n : Int) : String :=
  if 0 ≤ n ∧ n < 10 then "000" ++ toString n
  else if 0 ≤ n ∧ n < 100 then "00" ++ toString n
  else if 0 ≤ n ∧ n < 1000 then "0" ++ toString n
  else toString n

/-- `formatRu` (`internal/service/order.go:128`): renders
`"%d %s в %02d:%02d"` from the day, Russian month name, hour and minute. -/
def formatRu (t : Int) : String :=
  toString (timeDay t) ++ " " ++ monthsRu (timeMonth t) ++ " в "
    ++ pad2 (timeHour t) ++ ":" ++ pad2 (timeMinute t)

/-- Go's `Format("2006-01-02")` date key used by the transaction grouping
and the daily top-up counter. -/
def formatDate (t : Int) : String :=
  pad4 (timeYear t) ++ "-" ++ pad2 (timeMonth t) ++ "-" ++ pad2 (timeDay t)

/-- The response shape of `models.TransactionsResponse`: current page, total
pages and the date-grouped transactions (`models.TransactionsByDate` is a
`map[string][]Transaction`). -/
structure TransactionsResponse where
  currentPage : Int
  totalPages : Int
  data : List (String × List Transaction)
deriving DecidableEq, Repr

/-- The Go line `totalPages := int(math.Ceil(float64(total) / float64(pageSize)))`
(`internal/service/wallet.go:139`).  For the magnitudes a ledger can reach the
`float64` arithmetic is exact, so the value is the exact ceiling of the
rational `total / pageSize`; for `pageSize = 0` the Go conversion of `+Inf`
to `int` has no defined value and no claim depends on it, so the model picks
`0` there. -/
def totalPagesCalc (total : Nat) (pageSize : Int) : Int :=
  if 0 < pageSize then -(-(total : Int) / pageSize)
  else if pageSize < 0 then -((total : Int) / (-pageSize))
  else 0

/-- `WalletService.GetTransactions` (`internal/service/wallet.go:117`).
The `sort.Slice` call orders the log newest-first (the comparator is
`Time.After`); `mergeSort` determinises the unstable in-place sort — no
claim depends on the order of entries with equal timestamps.  A result of
`none` models the Go runtime panic of the slice expression
`userTransactions[start:end]` when the bounds are invalid (`start < 0` or
`end < start`); all other paths return a response. -/
def GetTransactions (userID : String) (page pageSize : Int) (ws : WalletState) :
    Option TransactionsResponse :=
  match lookupKey userID ws.transactions with
  | none => some { currentPage := page, totalPages := 0, data := [] }
  | some userTransactions =>
    let sorted := userTransactions.mergeSort (fun a b => decide (b.time ≤ a.time))
    let totalTransactions : Nat := sorted.length
    let totalPages := totalPagesCalc totalTransactions pageSize
    let start := (page - 1) * pageSize
    let endIdx := start + pageSize
    if (totalTransactions : Int) ≤ start then
      some { currentPage := page, totalPages := totalPages, data := [] }
    else
      let endIdx2 := if (totalTransactions : Int) < endIdx then (totalTransactions : Int) else endIdx
      if start < 0 ∨ endIdx2 < start then none
      else
        let paginated := (sorted.drop start.toNat).take (endIdx2 - start).toNat
        let byDate := paginated.foldl
          (fun m tx =>
            updateKey (formatDate tx.time)
              (((lookupKey (formatDate tx.time) m).getD []) ++ [tx]) m) []
        some { currentPage := page, totalPages := totalPages, data := byDate }

/-- The int-based `models.Product` as read by the cart
(`Name`, `Weight`, `Price`, `Available`, `Image`); the fields never read by
the embedded operations (`Rating float32`, `Description`, `Discount`,
`Reviews`, `IsFavorite`) are omitted — in particular
`ProductsService.GetProductByID` stamps only `IsFavorite`, which no modelled
consumer reads. -/
structure Product where
  id : String
  image : String
  name : String
  weight : Int
  price : Int
  available : Bool
deriving DecidableEq, Repr

/-- `ProductsService.GetProductByID` restricted to the modelled fields: a
`productIndex` miss is `NotFound`. -/
def GetProductByID (products : List (String × Product)) (id : String) :
    Except ErrKind Product :=
  match lookupKey id products with
  | none => Except.error ErrKind.notFound
  | some p => Except.ok p

/-- `models.CartItem`. -/
structure CartItem where
  productID : String
  quantity : Int
deriving DecidableEq, Repr

/-- `models.CartResponseItem`. -/
structure CartResponseItem where
  productID : String
  image : String
  name : String
  weight : Int
  price : Int
  quantity : Int
  available : Bool
deriving DecidableEq, Repr

/-- `models.CartResponse`. -/
structure CartResponse where
  deliveryTime : Int
  orderPrice : Int
  deliveryPrice : Int
  totalPrice : Int
  totalItems : Int
  items : List CartResponseItem
deriving DecidableEq, Repr

/-- The per-user cart store `Cart.items`
(`map[string]map[string]*models.CartItem`). -/
abbrev CartMap := List (String × List (String × CartItem))

/-- `Cart.getCartResponseItem` (`internal/service/cart.go:140`). -/
def getCartResponseItem (products : List (String × Product)) (item : CartItem) :
    Except ErrKind CartResponseItem :=
  match GetProductByID products item.productID with
  | Except.error e => Except.error e
  | Except.ok product =>
    Except.ok { productID := item.productID, quantity := item.quantity,
                name := product.name, weight := product.weight,
                price := product.price, available := product.available,
                image := product.image }

/-- Body of the `GetCart` loop (`internal/service/cart.go:49`): a line item
whose product lookup fails is logged and skipped; an available item adds to
the price and quantity totals; every resolved item is appended to the
listing. -/
def getCartStep (products : List (String × Product)) (resp : CartResponse)
    (e : String × CartItem) : CartResponse :=
  match getCartResponseItem products e.2 with
  | Except.error _ => resp
  | Except.ok ri =>
    let resp1 :=
      if ri.available then
        { resp with orderPrice := resp.orderPrice + ri.price * ri.quantity,
                    totalItems := resp.totalItems + ri.quantity }
      else resp
    { resp1 with items := resp1.items ++ [ri] }

/-- `Cart.GetCart` (`internal/service/cart.go:35`).  The Go signature has an
`error` result that is always nil, so the model returns the response
directly. -/
def GetCart (userID : String) (products : List (String × Product))
    (carts : CartMap) : CartResponse :=
  let base : CartResponse :=
    { deliveryTime := 15, orderPrice := 0, deliveryPrice := 150,
      totalPrice := 0, totalItems := 0, items := [] }
  let filled := ((lookupKey userID carts).getD []).foldl (getCartStep products) base
  { filled with totalPrice := filled.deliveryPrice + filled.orderPrice }

/-- `Cart.RemoveItem` (`internal/service/cart.go:100`). -/
def RemoveItem (userID productID : String) (products : List (String × Product))
    (carts : CartMap) : Except ErrKind Int × CartMap :=
  if (lookupKey productID products).isNone then
    (Except.error ErrKind.notFound, carts)
  else
    -- if _, ok := s.items[userID]; !ok { s.items[userID] = make(...) }
    let carts1 :=
      match lookupKey userID carts with
      | none => updateKey userID [] carts
      | some _ => carts
    let userCart := (lookupKey userID carts1).getD []
    match lookupKey productID userCart with
    | none => (Except.ok 0, carts1)
    | some item =>
      let q := item.quantity - 1
      if q ≤ 0 then (Except.ok 0, updateKey userID (removeKey productID userCart) carts1)
      else (Except.ok q,
        updateKey userID (updateKey productID { item with quantity := q } userCart) carts1)

/-- Quantity held in a cart line, as an `Option` (none when the user or the
line is absent). -/
def cartQuantity (carts : CartMap) (userID productID : String) : Option Int :=
  (lookupKey productID ((lookupKey userID carts).getD [])).map (·.quantity)

/-- `Cart.ClearCart` (`internal/service/cart.go:129`). -/
def ClearCart (userID : String) (carts : CartMap) : CartMap :=
  removeKey userID carts

/-- `models.Address`; the `Coordinates []float64` field is omitted: it is
floating-point data that no embedded operation reads. -/
structure Address where
  id : String
  addressLine : String
  floor : String
  entrance : String
  intercomCode : String
  comment : String
deriving DecidableEq, Repr

/-- `AddressService.GetAddressByID` (`internal/service/address.go:105`). -/
def GetAddressByID (userID addressID : String)
    (addresses : List (String × List Address)) : Except ErrKind Address :=
  match ((lookupKey userID addresses).getD []).find? (fun a => a.id = addressID) with
  | some a => Except.ok a
  | none => Except.error ErrKind.notFound

/-- `models.OrderStatus`. -/
inductive OrderStatus where
  | active
  | completed
deriving DecidableEq, Repr

/-- `models.OrderItem` (int-based variant). -/
structure OrderItem where
  id : String
  image : String
  name : String
  weight : Int
  price : Int
  quantity : Int
deriving DecidableEq, Repr

/-- `models.Order` (int-based variant); `createdAt` is the creation
timestamp (`json:"-"`). -/
structure Order where
  id : String
  status : OrderStatus
  deliveryDate : String
  address : Address
  orderPrice : Int
  deliveryPrice : Int
  totalPrice : Int
  totalItems : Int
  items : List OrderItem
  createdAt : Int
deriving DecidableEq, Repr

/-- `service.DeliveryTime = time.Minute * 10`, in nanoseconds. -/
def DeliveryTime : Int := 600000000000

/-- The per-order body of the `GetOrders` loop
(`internal/service/order.go:55`): an active order whose delivery time has
elapsed (`CreatedAt.Add(DeliveryTime).Before(now)`, a strict comparison) is
flipped to completed and stamped with the formatted delivery date. -/
def advanceOrder (now : Int) (o : Order) : Order :=
  if o.status = OrderStatus.active ∧ o.createdAt + DeliveryTime < now then
    { o with status := OrderStatus.completed,
             deliveryDate := formatRu (o.createdAt + DeliveryTime) }
  else o

/-- `OrderService.GetOrders` (`internal/service/order.go:42`).  The Go loop
mutates the stored orders through pointers and appends them to the result,
which is then reversed; the model returns the reversed advanced list and
stores the advanced list back. -/
def GetOrders (userID : String) (now : Int) (orders : List (String × List Order)) :
    List Order × List (String × List Order) :=
  match lookupKey userID orders with
  | none => ([], orders)
  | some userOrders =>
    let advanced := userOrders.map (advanceOrder now)
    (advanced.reverse, updateKey userID advanced orders)

/-- `models.OrderRequest`. -/
structure OrderRequest where
  paymentMethod : String
  addressID : String
deriving DecidableEq, Repr

/-- The state touched by checkout: the product index and address book it
reads, and the cart store and order ledger it mutates. -/
structure AppState where
  products : List (String × Product)
  addresses : List (String × List Address)
  carts : CartMap
  orders : List (String × List Order)
deriving DecidableEq, Repr

/-- `OrderService.MakeNewOrder` (`internal/service/order.go:68`).
`newOrderID` is the `uuid.NewString()` oracle and `now` the clock reading.
`Cart.GetCart` always returns a nil error, so the `get cart` error return
of the Go code is unreachable and has no branch here; the state is returned
on every path. -/
def MakeNewOrder (userID : String) (now : Int) (newOrderID : String)
    (req : OrderRequest) (st : AppState) : Except ErrKind Unit × AppState :=
  match GetAddressByID userID req.addressID st.addresses with
  | Except.error e => (Except.error e, st)
  | Except.ok address =>
    let cart := GetCart userID st.products st.carts
    let items := cart.items.filterMap (fun item =>
      if item.available then
        some ({ id := item.productID, image := item.image, name := item.name,
                weight := item.weight, price := item.price,
                quantity := item.quantity } : OrderItem)
      else none)
    if items.isEmpty then
      (Except.error ErrKind.badRequest, st)
    else
      let st1 := { st with carts := ClearCart userID st.carts }
      let newOrder : Order :=
        { id := newOrderID, status := OrderStatus.active, deliveryDate := "",
          address := address, orderPrice := cart.orderPrice,
          deliveryPrice := cart.deliveryPrice, totalPrice := cart.totalPrice,
          totalItems := cart.totalItems, items := items, createdAt := now }
      let st2 := { st1 with
        orders := updateKey userID
          (((lookupKey userID st1.orders).getD []) ++ [newOrder]) st1.orders }
      (Except.ok (), st2)

-- ===== Theorems =====

theorem lookupKey_updateKey_self (k : String) (v : β) (l : List (String × β)) :
    lookupKey k (updateKey k v l) = some v := by
  induction l with
  | nil => simp [lookupKey, updateKey]
  | cons hd tl ih =>
    by_cases h : hd.1 = k <;> simp [lookupKey, updateKey, h, ih]

theorem lookupKey_updateKey_ne (k k1 : String) (v : β) (l : List (String × β))
    (h : k1 ≠ k) : lookupKey k1 (updateKey k v l) = lookupKey k1 l := by
  have hk : k ≠ k1 := fun h1 => h h1.symm
  induction l with
  | nil => simp [lookupKey, updateKey, hk]
  | cons hd tl ih =>
    by_cases h2 : hd.1 = k
    · simp [lookupKey, updateKey, h2, hk]
    · by_cases h3 : hd.1 = k1 <;> simp [lookupKey, updateKey, h2, h3, h, ih]

theorem mem_updateKey (k : String) (v : β) (l : List (String × β)) (x : String × β)
    (hx : x ∈ updateKey k v l) : x = (k, v) ∨ x ∈ l := by
  induction l with
  | nil => simpa [updateKey] using hx
  | cons hd tl ih =>
    by_cases h : hd.1 = k
    · rcases (by simpa [updateKey, h] using hx) with h1 | h1
      · exact Or.inl h1
      · exact Or.inr (List.mem_cons_of_mem _ h1)
    · rcases (by simpa [updateKey, h] using hx) with h1 | h1
      · exact Or.inr (by simp [h1])
      · rcases ih h1 with h2 | h2
        · exact Or.inl h2
        · exact Or.inr (List.mem_cons_of_mem _ h2)

theorem getOrCreateUserPhone_isOk (freshPhone userID : String) (ws : WalletState)
    (ud : UserDataState) :
    ∃ r, getOrCreateUserPhone freshPhone userID ws ud = Except.ok r := by
  unfold getOrCreateUserPhone GetProfile
  cases h1 : lookupKey userID ws.userPhones <;>
    cases h2 : lookupKey userID ud.profileInfo <;> simp

/-- C1: if `TransferMoney` returns an error then no state is changed: the
whole wallet state (account balances, transaction logs, daily top-up
counters, phone cache) and the user-data state are exactly as before the
call.  The one error return that sits after the balance mutations — the
sender-phone lookup failure — is unreachable, because `UserData.GetProfile`
never returns an error. -/
theorem transferMoney_error_no_state_change
    (fromUserID freshPhone : String) (now : Int) (req : TransferRequest)
    (ws : WalletState) (ud : UserDataState) (e : ErrKind)
    (h : (TransferMoney fromUserID freshPhone now req ws ud).1 = Except.error e) :
    (TransferMoney fromUserID freshPhone now req ws ud).2.1 = ws ∧
    (TransferMoney fromUserID freshPhone now req ws ud).2.2 = ud := by
  cases h1 : lookupKey fromUserID ws.accounts with
  | none => simp [TransferMoney, h1]
  | some fromAccs =>
    cases h2 : lookupKey req.fromAccountID fromAccs with
    | none => simp [TransferMoney, h1, h2]
    | some fromAcc =>
      by_cases h3 : fromAcc.balance < req.amount
      · simp [TransferMoney, h1, h2, h3]
      · cases h4 : GetUserIDByPhone req.toPhoneNumber ud with
        | none => simp [TransferMoney, h1, h2, h3, h4]
        | some toU =>
          by_cases h5 : toU = fromUserID
          · simp [TransferMoney, h1, h2, h3, h4, h5]
          · cases h6 : lookupKey toU ws.accounts with
            | none => simp [TransferMoney, h1, h2, h3, h4, h5, h6]
            | some toAccs =>
              cases h7 : toAccs.head? with
              | none => simp [TransferMoney, h1, h2, h3, h4, h5, h6, h7]
              | some hd =>
                obtain ⟨toAccID, toAcc⟩ := hd
                obtain ⟨r, h8⟩ := getOrCreateUserPhone_isOk freshPhone fromUserID
                  { ws with
                    accounts := updateKey toU
                      (updateKey toAccID { toAcc with balance := toAcc.balance + req.amount } toAccs)
                      (updateKey fromUserID
                        (updateKey req.fromAccountID
                          { fromAcc with balance := fromAcc.balance - req.amount } fromAccs)
                        ws.accounts),
                    transactions := updateKey fromUserID
                      (txLog { ws with
                        accounts := updateKey toU
                          (updateKey toAccID { toAcc with balance := toAcc.balance + req.amount } toAccs)
                          (updateKey fromUserID
                            (updateKey req.fromAccountID
                              { fromAcc with balance := fromAcc.balance - req.amount } fromAccs)
                            ws.accounts) } fromUserID ++
                        [{ amount := -req.amount,
                           title := "Перевод на номер " ++ req.toPhoneNumber,
                           time := now, icon := "" }])
                      ws.transactions } ud
                obtain ⟨p, w, u⟩ := r
                simp [TransferMoney, h1, h2, h3, h4, h5, h6, h7, h8] at h

theorem transferMoney_error_no_state_change_witness :
    (TransferMoney "u" "f" 0 ⟨"a", "p", 5⟩ ⟨[], [], [], []⟩ ⟨[]⟩).2.1 = ⟨[], [], [], []⟩ ∧
    (TransferMoney "u" "f" 0 ⟨"a", "p", 5⟩ ⟨[], [], [], []⟩ ⟨[]⟩).2.2 = ⟨[]⟩ :=
  transferMoney_error_no_state_change "u" "f" 0 ⟨"a", "p", 5⟩
    ⟨[], [], [], []⟩ ⟨[]⟩ ErrKind.notFound rfl

theorem getOrCreateUserPhone_eq (freshPhone userID : String) (ws : WalletState)
    (ud : UserDataState) :
    getOrCreateUserPhone freshPhone userID ws ud =
      Except.ok (match lookupKey userID ws.userPhones with
        | some phone => (phone, ws, ud)
        | none =>
          match lookupKey userID ud.profileInfo with
          | some p =>
            (p.phone, { ws with userPhones := updateKey userID p.phone ws.userPhones }, ud)
          | none =>
            (freshPhone,
             { ws with userPhones := updateKey userID freshPhone ws.userPhones },
             { profileInfo :=
                updateKey userID ⟨freshPhone, "", "", ""⟩ ud.profileInfo })) := by
  unfold getOrCreateUserPhone GetProfile
  cases h1 : lookupKey userID ws.userPhones <;>
    cases h2 : lookupKey userID ud.profileInfo <;> simp

/-- C3: a successful transfer of amount A debits the sender account from B1
to B1−A, credits the chosen recipient account from B2 to B2+A (their sum is
conserved), and appends exactly two ledger entries: one of amount −A to the
sender's log and one of amount +A to the recipient's log, both stamped with
the same time `now`; no other user's log changes.  The hypotheses spell out
the validation reads that a successful call performs. -/
theorem transferMoney_success_postcondition
    (fromUserID freshPhone : String) (now : Int) (req : TransferRequest)
    (ws : WalletState) (ud : UserDataState)
    (fromAccs : List (String × Account)) (fromAcc : Account)
    (toU toAccID : String) (toAcc : Account) (toAccs : List (String × Account))
    (h1 : lookupKey fromUserID ws.accounts = some fromAccs)
    (h2 : lookupKey req.fromAccountID fromAccs = some fromAcc)
    (h3 : ¬ fromAcc.balance < req.amount)
    (h4 : GetUserIDByPhone req.toPhoneNumber ud = some toU)
    (h5 : ¬ toU = fromUserID)
    (h6 : lookupKey toU ws.accounts = some toAccs)
    (h7 : toAccs.head? = some (toAccID, toAcc)) :
    (TransferMoney fromUserID freshPhone now req ws ud).1
        = Except.ok (fromAcc.balance - req.amount) ∧
    accountBalance (TransferMoney fromUserID freshPhone now req ws ud).2.1
        fromUserID req.fromAccountID = some (fromAcc.balance - req.amount) ∧
    accountBalance (TransferMoney fromUserID freshPhone now req ws ud).2.1
        toU toAccID = some (toAcc.balance + req.amount) ∧
    (fromAcc.balance - req.amount) + (toAcc.balance + req.amount)
        = fromAcc.balance + toAcc.balance ∧
    (∃ t1, txLog (TransferMoney fromUserID freshPhone now req ws ud).2.1 fromUserID
        = txLog ws fromUserID
          ++ [{ amount := -req.amount, title := t1, time := now, icon := "" }]) ∧
    (∃ t2, txLog (TransferMoney fromUserID freshPhone now req ws ud).2.1 toU
        = txLog ws toU
          ++ [{ amount := req.amount, title := t2, time := now, icon := "" }]) ∧
    (∀ u, u ≠ fromUserID → u ≠ toU →
      txLog (TransferMoney fromUserID freshPhone now req ws ud).2.1 u = txLog ws u) := by
  have h5a : fromUserID ≠ toU := fun hh => h5 hh.symm
  cases hp : lookupKey fromUserID ws.userPhones with
  | some phone =>
    simp [TransferMoney, h1, h2, h3, h4, h5, h6, h7, getOrCreateUserPhone_eq, hp,
      accountBalance, txLog, lookupKey_updateKey_self,
      lookupKey_updateKey_ne _ _ _ _ h5a, lookupKey_updateKey_ne _ _ _ _ h5]
    exact fun u hu1 hu2 => by
      rw [lookupKey_updateKey_ne _ _ _ _ hu2, lookupKey_updateKey_ne _ _ _ _ hu1]
  | none =>
    cases hq : lookupKey fromUserID ud.profileInfo with
    | some p =>
      simp [TransferMoney, h1, h2, h3, h4, h5, h6, h7, getOrCreateUserPhone_eq, hp, hq,
        accountBalance, txLog, lookupKey_updateKey_self,
        lookupKey_updateKey_ne _ _ _ _ h5a, lookupKey_updateKey_ne _ _ _ _ h5]
      exact fun u hu1 hu2 => by
        rw [lookupKey_updateKey_ne _ _ _ _ hu2, lookupKey_updateKey_ne _ _ _ _ hu1]
    | none =>
      simp [TransferMoney, h1, h2, h3, h4, h5, h6, h7, getOrCreateUserPhone_eq, hp, hq,
        accountBalance, txLog, lookupKey_updateKey_self,
        lookupKey_updateKey_ne _ _ _ _ h5a, lookupKey_updateKey_ne _ _ _ _ h5]
      exact fun u hu1 hu2 => by
        rw [lookupKey_updateKey_ne _ _ _ _ hu2, lookupKey_updateKey_ne _ _ _ _ hu1]
theorem topupAccount_dailyTotal_step (u d : String) (now : Int) (r : TopupRequest)
    (ws : WalletState) :
    dailyTotal (TopupAccount u d now r ws).2 u d
      = dailyTotal ws u d
        + (if (TopupAccount u d now r ws).1.isOk then r.amount else 0) ∧
    ((TopupAccount u d now r ws).1.isOk = true → dailyTotal ws u d + r.amount ≤ 1000) := by
  simp only [Except.isOk, Except.toBool]
  cases h0 : lookupKey u ws.dailyTopups with
  | none =>
    have hz : dailyTotal ws u d = 0 := by simp [dailyTotal, h0, lookupKey]
    by_cases h1 : (1000 : Int) < r.amount
    · simp [TopupAccount, h0, h1, hz, dailyTotal, lookupKey_updateKey_self, lookupKey]
    · cases h3 : lookupKey u ws.accounts with
      | none => simp [TopupAccount, h0, h1, h3, hz, dailyTotal, lookupKey_updateKey_self, lookupKey]
      | some accs =>
        cases h4 : lookupKey r.accountID accs with
        | none =>
          simp [TopupAccount, h0, h1, h3, h4, hz, dailyTotal, lookupKey_updateKey_self, lookupKey]
        | some acc =>
          constructor
          · simp [TopupAccount, h0, h1, h3, h4, hz, dailyTotal,
              lookupKey_updateKey_self, lookupKey]
          · intro _
            rw [hz]
            omega
  | some dm =>
    have hx : dailyTotal ws u d = (lookupKey d dm).getD 0 := by simp [dailyTotal, h0]
    by_cases h1 : (1000 : Int) < (lookupKey d dm).getD 0 + r.amount
    · simp [TopupAccount, h0, h1, hx, dailyTotal, lookupKey_updateKey_self, lookupKey]
    · cases h3 : lookupKey u ws.accounts with
      | none => simp [TopupAccount, h0, h1, h3, hx, dailyTotal, lookupKey_updateKey_self, lookupKey]
      | some accs =>
        cases h4 : lookupKey r.accountID accs with
        | none =>
          simp [TopupAccount, h0, h1, h3, h4, hx, dailyTotal, lookupKey_updateKey_self, lookupKey]
        | some acc =>
          constructor
          · simp [TopupAccount, h0, h1, h3, h4, hx, dailyTotal,
              lookupKey_updateKey_self, lookupKey]
          · intro _
            rw [hx]
            omega
theorem runTopups_dailyTotal (u d : String) (now : Int) :
    ∀ (reqs : List TopupRequest) (ws : WalletState),
      dailyTotal (runTopups u d now ws reqs) u d
        = dailyTotal ws u d + acceptedTopupSum u d now ws reqs ∧
      (dailyTotal ws u d ≤ 1000 → dailyTotal (runTopups u d now ws reqs) u d ≤ 1000)
  | [], ws => by simp [runTopups, acceptedTopupSum]
  | r :: rest, ws => by
    obtain ⟨hstep, hcap⟩ := topupAccount_dailyTotal_step u d now r ws
    obtain ⟨ih1, ih2⟩ := runTopups_dailyTotal u d now rest (TopupAccount u d now r ws).2
    constructor
    · rw [runTopups, acceptedTopupSum, ih1, hstep]
      ring
    · intro hb
      apply ih2
      rw [hstep]
      by_cases hok : (TopupAccount u d now r ws).1.isOk
      · have := hcap hok
        simp [hok]
        omega
      · simp [hok]
        exact hb

/-- C2: replaying any sequence of top-ups by one user within one calendar
day from a state whose daily counter is zero, the cumulative sum of the
accepted amounts stays within the 1000 cap after every prefix; and any
single top-up that would push the counter over the cap fails with
`BadRequest` and leaves every account balance and every daily counter value
unchanged (the only possible structural change is materialising the empty
per-user counter map, which holds no value). -/
theorem topup_daily_cap (u d : String) (now : Int) (ws : WalletState)
    (reqs : List TopupRequest) (h0 : dailyTotal ws u d = 0) :
    (∀ n, acceptedTopupSum u d now ws (reqs.take n) ≤ 1000) ∧
    (∀ (ws1 : WalletState) (r : TopupRequest),
      dailyTotal ws1 u d + r.amount > 1000 →
        (TopupAccount u d now r ws1).1 = Except.error ErrKind.badRequest ∧
        (∀ u2 a, accountBalance (TopupAccount u d now r ws1).2 u2 a = accountBalance ws1 u2 a) ∧
        (∀ u2 d2, dailyTotal (TopupAccount u d now r ws1).2 u2 d2 = dailyTotal ws1 u2 d2)) := by
  constructor
  · intro n
    obtain ⟨hsum, hbound⟩ := runTopups_dailyTotal u d now (reqs.take n) ws
    rw [hsum, h0, zero_add] at hbound
    exact hbound (by omega)
  · intro ws1 r hover
    cases hq : lookupKey u ws1.dailyTopups with
    | none =>
      have hz : dailyTotal ws1 u d = 0 := by simp [dailyTotal, hq, lookupKey]
      have hgt : (1000 : Int) < r.amount := by rw [hz] at hover; omega
      refine ⟨?_, ?_, ?_⟩
      · simp [TopupAccount, hq, dailyTotal, lookupKey_updateKey_self, lookupKey, hgt]
      · intro u2 a
        simp [TopupAccount, hq, dailyTotal, lookupKey_updateKey_self, lookupKey,
          accountBalance, hgt]
      · intro u2 d2
        by_cases hu : u2 = u
        · subst hu
          simp [TopupAccount, hq, dailyTotal, lookupKey_updateKey_self, lookupKey, hgt]
        · simp [TopupAccount, hq, dailyTotal, lookupKey, accountBalance, hgt,
            lookupKey_updateKey_self, lookupKey_updateKey_ne _ _ _ _ hu]
    | some dm =>
      have hx : dailyTotal ws1 u d = (lookupKey d dm).getD 0 := by simp [dailyTotal, hq]
      have hgt : (1000 : Int) < (lookupKey d dm).getD 0 + r.amount := by
        rw [hx] at hover; omega
      refine ⟨?_, ?_, ?_⟩
      · simp [TopupAccount, hq, dailyTotal, hgt]
      · intro u2 a
        simp [TopupAccount, hq, dailyTotal, hgt]
      · intro u2 d2
        simp [TopupAccount, hq, dailyTotal, hgt]

theorem topup_daily_cap_witness :
    acceptedTopupSum "u" "2026-01-01" 0 ⟨[("u", [("a", ⟨"a", "card", 0⟩)])], [], [], []⟩
      ([⟨"a", 600⟩, ⟨"a", 600⟩].take 2) ≤ 1000 ∧
    (TopupAccount "u" "2026-01-01" 0 ⟨"a", 1001⟩
      ⟨[("u", [("a", ⟨"a", "card", 0⟩)])], [], [], []⟩).1 = Except.error ErrKind.badRequest := by
  have h := topup_daily_cap "u" "2026-01-01" 0
    ⟨[("u", [("a", ⟨"a", "card", 0⟩)])], [], [], []⟩ [⟨"a", 600⟩, ⟨"a", 600⟩] rfl
  exact ⟨h.1 2,
    (h.2 ⟨[("u", [("a", ⟨"a", "card", 0⟩)])], [], [], []⟩ ⟨"a", 1001⟩ (by decide)).1⟩
theorem transferMoney_success_postcondition_witness :
    (TransferMoney "alice" "fresh" 7 ⟨"a1", "222", 30⟩
        ⟨[("alice", [("a1", ⟨"a1", "card", 100⟩)]), ("bob", [("b1", ⟨"b1", "card", 50⟩)])],
         [], [], [("alice", "111")]⟩ ⟨[("bob", ⟨"222", "", "", ""⟩)]⟩).1 = Except.ok 70 ∧
    accountBalance (TransferMoney "alice" "fresh" 7 ⟨"a1", "222", 30⟩
        ⟨[("alice", [("a1", ⟨"a1", "card", 100⟩)]), ("bob", [("b1", ⟨"b1", "card", 50⟩)])],
         [], [], [("alice", "111")]⟩ ⟨[("bob", ⟨"222", "", "", ""⟩)]⟩).2.1
      "alice" "a1" = some 70 ∧
    accountBalance (TransferMoney "alice" "fresh" 7 ⟨"a1", "222", 30⟩
        ⟨[("alice", [("a1", ⟨"a1", "card", 100⟩)]), ("bob", [("b1", ⟨"b1", "card", 50⟩)])],
         [], [], [("alice", "111")]⟩ ⟨[("bob", ⟨"222", "", "", ""⟩)]⟩).2.1
      "bob" "b1" = some 80 := by
  have h := transferMoney_success_postcondition "alice" "fresh" 7 ⟨"a1", "222", 30⟩
    ⟨[("alice", [("a1", ⟨"a1", "card", 100⟩)]), ("bob", [("b1", ⟨"b1", "card", 50⟩)])],
     [], [], [("alice", "111")]⟩ ⟨[("bob", ⟨"222", "", "", ""⟩)]⟩
    [("a1", ⟨"a1", "card", 100⟩)] ⟨"a1", "card", 100⟩ "bob" "b1" ⟨"b1", "card", 50⟩
    [("b1", ⟨"b1", "card", 50⟩)] rfl rfl (by decide) rfl (by decide) rfl rfl
  exact ⟨h.1, h.2.1, h.2.2.1⟩

theorem lookupKey_mem (k : String) (l : List (String × β)) (v : β)
    (h : lookupKey k l = some v) : (k, v) ∈ l := by
  induction l with
  | nil => simp [lookupKey] at h
  | cons hd tl ih =>
    rcases hd with ⟨k1, v1⟩
    by_cases h1 : k1 = k
    · simp [lookupKey, h1] at h
      subst h1
      subst h
      exact List.mem_cons_self _ _
    · simp [lookupKey, h1] at h
      exact List.mem_cons_of_mem _ (ih h)

theorem accountEntries_nonneg_update (accs : List (String × Account)) (aid : String)
    (a : Account) (hall : ∀ q ∈ accs, 0 ≤ q.2.balance) (hb : 0 ≤ a.balance) :
    ∀ q ∈ updateKey aid a accs, 0 ≤ q.2.balance := by
  intro q hq
  rcases mem_updateKey _ _ _ _ hq with h | h
  · rw [h]
    exact hb
  · exact hall q h

theorem allBalancesNonneg_update (l : List (String × List (String × Account)))
    (u1 : String) (accs1 : List (String × Account))
    (hl : ∀ p ∈ l, ∀ q ∈ p.2, 0 ≤ q.2.balance)
    (ha : ∀ q ∈ accs1, 0 ≤ q.2.balance) :
    ∀ p ∈ updateKey u1 accs1 l, ∀ q ∈ p.2, 0 ≤ q.2.balance := by
  intro p hp
  rcases mem_updateKey _ _ _ _ hp with h | h
  · rw [h]
    exact ha
  · exact hl p h

/-- C4 counterexample: a top-up request with a negative amount passes the
only check performed (the daily cap) and drives a balance of 0 to −100,
so the claim that every core wallet operation preserves non-negative
balances fails as stated. -/
theorem topup_negative_amount_breaks_nonneg :
    allBalancesNonneg ⟨[("u", [("a", ⟨"a", "card", 0⟩)])], [], [], []⟩ ∧
    (TopupAccount "u" "2026-01-01" 0 ⟨"a", -100⟩
        ⟨[("u", [("a", ⟨"a", "card", 0⟩)])], [], [], []⟩).1 = Except.ok (-100) ∧
    ¬ allBalancesNonneg
        (TopupAccount "u" "2026-01-01" 0 ⟨"a", -100⟩
          ⟨[("u", [("a", ⟨"a", "card", 0⟩)])], [], [], []⟩).2 :=
  ⟨by decide, rfl, by decide⟩

/-- C4 (amended): starting from a state where every account balance is
non-negative, `TopupAccount` and `TransferMoney` preserve that invariant
for every request whose amount is non-negative (the code itself never
checks the sign of the request amount). -/
theorem wallet_ops_preserve_nonneg
    (u d f : String) (now : Int) (tr : TopupRequest) (rr : TransferRequest)
    (ws : WalletState) (ud : UserDataState)
    (hws : allBalancesNonneg ws) (htr : 0 ≤ tr.amount) (hrr : 0 ≤ rr.amount) :
    allBalancesNonneg (TopupAccount u d now tr ws).2 ∧
    allBalancesNonneg (TransferMoney u f now rr ws ud).2.1 := by
  constructor
  · -- top-up
    cases h0 : lookupKey u ws.dailyTopups with
    | none =>
      by_cases h1 : (1000 : Int) < tr.amount
      · simpa [TopupAccount, h0, h1, dailyTotal, lookupKey_updateKey_self, lookupKey,
          allBalancesNonneg] using hws
      · cases h3 : lookupKey u ws.accounts with
        | none =>
          simpa [TopupAccount, h0, h1, h3, dailyTotal, lookupKey_updateKey_self, lookupKey,
            allBalancesNonneg] using hws
        | some accs =>
          cases h4 : lookupKey tr.accountID accs with
          | none =>
            simpa [TopupAccount, h0, h1, h3, h4, dailyTotal, lookupKey_updateKey_self,
              lookupKey, allBalancesNonneg] using hws
          | some acc =>
            have hacc : 0 ≤ acc.balance :=
              hws _ (lookupKey_mem _ _ _ h3) _ (lookupKey_mem _ _ _ h4)
            simp only [TopupAccount, h0, h1, h3, h4, allBalancesNonneg, dailyTotal,
              lookupKey_updateKey_self, lookupKey, Option.getD]
            simp only [gt_iff_lt, Option.getD_none, zero_add, h1, if_false]
            exact allBalancesNonneg_update _ _ _ hws
              (accountEntries_nonneg_update _ _ _ (hws _ (lookupKey_mem _ _ _ h3))
                (add_nonneg hacc htr))
    | some dm =>
      by_cases h1 : (1000 : Int) < (lookupKey d dm).getD 0 + tr.amount
      · simpa [TopupAccount, h0, h1, dailyTotal, allBalancesNonneg] using hws
      · cases h3 : lookupKey u ws.accounts with
        | none => simpa [TopupAccount, h0, h1, h3, dailyTotal, allBalancesNonneg] using hws
        | some accs =>
          cases h4 : lookupKey tr.accountID accs with
          | none => simpa [TopupAccount, h0, h1, h3, h4, dailyTotal, allBalancesNonneg] using hws
          | some acc =>
            simp only [TopupAccount, h0, h1, h3, h4, allBalancesNonneg, dailyTotal,
              Option.getD_some]
            simp only [gt_iff_lt, h1, if_false]
            exact allBalancesNonneg_update _ _ _ hws
              (accountEntries_nonneg_update accs tr.accountID
                { acc with balance := acc.balance + tr.amount }
                (hws _ (lookupKey_mem _ _ _ h3))
                (add_nonneg (hws _ (lookupKey_mem _ _ _ h3) _ (lookupKey_mem _ _ _ h4)) htr))
  · -- transfer
    cases h1 : lookupKey u ws.accounts with
    | none => simpa [TransferMoney, h1, allBalancesNonneg] using hws
    | some fromAccs =>
      cases h2 : lookupKey rr.fromAccountID fromAccs with
      | none => simpa [TransferMoney, h1, h2, allBalancesNonneg] using hws
      | some fromAcc =>
        by_cases h3 : fromAcc.balance < rr.amount
        · simpa [TransferMoney, h1, h2, h3, allBalancesNonneg] using hws
        · cases h4 : GetUserIDByPhone rr.toPhoneNumber ud with
          | none => simpa [TransferMoney, h1, h2, h3, h4, allBalancesNonneg] using hws
          | some toU =>
            by_cases h5 : toU = u
            · simpa [TransferMoney, h1, h2, h3, h4, h5, allBalancesNonneg] using hws
            · cases h6 : lookupKey toU ws.accounts with
              | none =>
                simpa [TransferMoney, h1, h2, h3, h4, h5, h6, allBalancesNonneg] using hws
              | some toAccs =>
                cases h7 : toAccs.head? with
                | none =>
                  simpa [TransferMoney, h1, h2, h3, h4, h5, h6, h7, allBalancesNonneg] using hws
                | some hd =>
                  obtain ⟨toAccID, toAcc⟩ := hd
                  have hfrom : 0 ≤ fromAcc.balance - rr.amount :=
                    sub_nonneg.mpr (not_lt.mp h3)
                  have hto : 0 ≤ toAcc.balance + rr.amount :=
                    add_nonneg (hws _ (lookupKey_mem _ _ _ h6) _ (List.mem_of_mem_head? h7)) hrr
                  have hcore := allBalancesNonneg_update _ toU
                    (updateKey toAccID { toAcc with balance := toAcc.balance + rr.amount } toAccs)
                    (allBalancesNonneg_update _ u
                      (updateKey rr.fromAccountID
                        { fromAcc with balance := fromAcc.balance - rr.amount } fromAccs)
                      hws
                      (accountEntries_nonneg_update _ _ _ (hws _ (lookupKey_mem _ _ _ h1)) hfrom))
                    (accountEntries_nonneg_update _ _ _ (hws _ (lookupKey_mem _ _ _ h6)) hto)
                  cases hp : lookupKey u ws.userPhones with
                  | some phone =>
                    simpa [TransferMoney, h1, h2, h3, h4, h5, h6, h7, hp,
                      getOrCreateUserPhone_eq, allBalancesNonneg] using hcore
                  | none =>
                    cases hq : lookupKey u ud.profileInfo with
                    | some p =>
                      simpa [TransferMoney, h1, h2, h3, h4, h5, h6, h7, hp, hq,
                        getOrCreateUserPhone_eq, allBalancesNonneg] using hcore
                    | none =>
                      simpa [TransferMoney, h1, h2, h3, h4, h5, h6, h7, hp, hq,
                        getOrCreateUserPhone_eq, allBalancesNonneg] using hcore

theorem wallet_ops_preserve_nonneg_witness :
    allBalancesNonneg (TopupAccount "u" "2026-01-01" 0 ⟨"a", 100⟩
      ⟨[("u", [("a", ⟨"a", "card", 5⟩)])], [], [], []⟩).2 ∧
    allBalancesNonneg (TransferMoney "u" "f" 0 ⟨"a", "p", 3⟩
      ⟨[("u", [("a", ⟨"a", "card", 5⟩)])], [], [], []⟩ ⟨[]⟩).2.1 :=
  wallet_ops_preserve_nonneg "u" "2026-01-01" "f" 0 ⟨"a", 100⟩ ⟨"a", "p", 3⟩
    ⟨[("u", [("a", ⟨"a", "card", 5⟩)])], [], [], []⟩ ⟨[]⟩
    (by decide) (by decide) (by decide)
theorem formatRu_ne_empty (t : Int) : formatRu t ≠ "" := by
  intro h
  have h1 : (formatRu t).length = 0 := by rw [h]; rfl
  have h2 : (" в " : String).length = 3 := rfl
  have h3 : (" " : String).length = 1 := rfl
  have h4 : (":" : String).length = 1 := rfl
  simp only [formatRu, String.length_append, h2, h3, h4] at h1
  omega

/-- C5: an order created at time T with delivery duration `DeliveryTime`
is listed as `active` at any time strictly before T + DeliveryTime; listed
at a time strictly after T + DeliveryTime it comes back `completed` with a
non-empty delivery date, the completed order is persisted into the store,
and any later listing returns the same completed order — re-applying the
status check to a completed order changes nothing. -/
theorem order_lazy_transition
    (u : String) (orders : List (String × List Order)) (l : List Order) (o : Order)
    (now1 now2 now3 : Int)
    (hl : lookupKey u orders = some l) (ho : o ∈ l)
    (hact : o.status = OrderStatus.active) :
    (now1 < o.createdAt + DeliveryTime →
      advanceOrder now1 o = o ∧ o ∈ (GetOrders u now1 orders).1) ∧
    (o.createdAt + DeliveryTime < now2 →
      (advanceOrder now2 o).status = OrderStatus.completed ∧
      (advanceOrder now2 o).deliveryDate ≠ "" ∧
      advanceOrder now2 o ∈ (GetOrders u now2 orders).1 ∧
      advanceOrder now3 (advanceOrder now2 o) = advanceOrder now2 o ∧
      advanceOrder now2 o ∈ (GetOrders u now3 (GetOrders u now2 orders).2).1) := by
  constructor
  · intro hlt
    have hnc : ¬ (o.createdAt + DeliveryTime < now1) := by omega
    have heq : advanceOrder now1 o = o := by simp [advanceOrder, hnc]
    refine ⟨heq, ?_⟩
    have hm : advanceOrder now1 o ∈ l.map (advanceOrder now1) := List.mem_map_of_mem _ ho
    rw [heq] at hm
    simpa [GetOrders, hl, List.mem_reverse] using hm
  · intro hgt
    have hc : advanceOrder now2 o
        = { o with status := OrderStatus.completed,
                   deliveryDate := formatRu (o.createdAt + DeliveryTime) } := by
      simp [advanceOrder, hact, hgt]
    have hid : advanceOrder now3 (advanceOrder now2 o) = advanceOrder now2 o := by
      rw [hc]
      simp [advanceOrder]
    refine ⟨by rw [hc], by rw [hc]; exact formatRu_ne_empty _, ?_, hid, ?_⟩
    · simpa [GetOrders, hl, List.mem_reverse] using
        List.mem_map_of_mem (advanceOrder now2) ho
    · have hmem : advanceOrder now2 o ∈ l.map (advanceOrder now2) :=
        List.mem_map_of_mem _ ho
      have : advanceOrder now3 (advanceOrder now2 o)
          ∈ (l.map (advanceOrder now2)).map (advanceOrder now3) :=
        List.mem_map_of_mem _ hmem
      rw [hid] at this
      simpa [GetOrders, hl, lookupKey_updateKey_self, List.mem_reverse] using this

theorem order_lazy_transition_witness :
    advanceOrder 5 ⟨"o1", OrderStatus.active, "", ⟨"a", "l", "f", "e", "i", "c"⟩,
        10, 150, 160, 1, [], 0⟩
      = ⟨"o1", OrderStatus.active, "", ⟨"a", "l", "f", "e", "i", "c"⟩, 10, 150, 160, 1, [], 0⟩ ∧
    (advanceOrder 700000000000 ⟨"o1", OrderStatus.active, "", ⟨"a", "l", "f", "e", "i", "c"⟩,
        10, 150, 160, 1, [], 0⟩).status = OrderStatus.completed ∧
    (advanceOrder 700000000000 ⟨"o1", OrderStatus.active, "", ⟨"a", "l", "f", "e", "i", "c"⟩,
        10, 150, 160, 1, [], 0⟩).deliveryDate ≠ "" ∧
    advanceOrder 700000000000 ⟨"o1", OrderStatus.active, "", ⟨"a", "l", "f", "e", "i", "c"⟩,
        10, 150, 160, 1, [], 0⟩
      ∈ (GetOrders "u" 700000000000
          [("u", [⟨"o1", OrderStatus.active, "", ⟨"a", "l", "f", "e", "i", "c"⟩,
                   10, 150, 160, 1, [], 0⟩])]).1 := by
  have h := order_lazy_transition "u"
    [("u", [⟨"o1", OrderStatus.active, "", ⟨"a", "l", "f", "e", "i", "c"⟩,
             10, 150, 160, 1, [], 0⟩])]
    [⟨"o1", OrderStatus.active, "", ⟨"a", "l", "f", "e", "i", "c"⟩, 10, 150, 160, 1, [], 0⟩]
    ⟨"o1", OrderStatus.active, "", ⟨"a", "l", "f", "e", "i", "c"⟩, 10, 150, 160, 1, [], 0⟩
    5 700000000000 800000000000 rfl (by simp) rfl
  obtain ⟨ha, hb⟩ := h
  obtain ⟨hb1, hb2, hb3, _, _⟩ := hb (by decide)
  exact ⟨(ha (by decide)).1, hb1, hb2, hb3⟩
/-- C6: when the caller's cart snapshot holds no available item (and the
delivery address resolves), `MakeNewOrder` fails with `BadRequest` and the
whole application state — in particular the cart store and the order
ledger — is exactly as before; moreover every error return of
`MakeNewOrder` leaves the state unchanged, so the cart is cleared only
after address resolution, the cart fetch and the non-empty-after-filter
check have all succeeded. -/
theorem makeNewOrder_empty_cart_guard
    (u newOrderID : String) (now : Int) (req : OrderRequest) (st : AppState)
    (addr : Address)
    (haddr : GetAddressByID u req.addressID st.addresses = Except.ok addr)
    (hunavail : ∀ item ∈ (GetCart u st.products st.carts).items,
      item.available = false) :
    (MakeNewOrder u now newOrderID req st).1 = Except.error ErrKind.badRequest ∧
    (MakeNewOrder u now newOrderID req st).2 = st ∧
    (∀ (st0 : AppState) (e : ErrKind),
      (MakeNewOrder u now newOrderID req st0).1 = Except.error e →
      (MakeNewOrder u now newOrderID req st0).2 = st0) := by
  have hitems : (GetCart u st.products st.carts).items.filterMap (fun item =>
      if item.available then
        some ({ id := item.productID, image := item.image, name := item.name,
                weight := item.weight, price := item.price,
                quantity := item.quantity } : OrderItem)
      else none) = [] := by
    rw [List.filterMap_eq_nil_iff]
    intro a ha
    simp [hunavail a ha]
  refine ⟨?_, ?_, ?_⟩
  · simp [MakeNewOrder, haddr, hitems]
  · simp [MakeNewOrder, haddr, hitems]
  · intro st0 e
    cases hA : GetAddressByID u req.addressID st0.addresses with
    | error e2 =>
      intro _
      simp [MakeNewOrder, hA]
    | ok a2 =>
      simp only [MakeNewOrder, hA]
      split
      · intro _
        rfl
      · intro he
        simp at he

theorem makeNewOrder_empty_cart_guard_witness :
    (MakeNewOrder "u" 3 "oid" ⟨"card", "addr1"⟩
        ⟨[("p", ⟨"p", "i", "n", 1, 10, false⟩)],
         [("u", [⟨"addr1", "l", "f", "e", "i", "c"⟩])],
         [("u", [("p", ⟨"p", 2⟩)])], []⟩).1 = Except.error ErrKind.badRequest ∧
    (MakeNewOrder "u" 3 "oid" ⟨"card", "addr1"⟩
        ⟨[("p", ⟨"p", "i", "n", 1, 10, false⟩)],
         [("u", [⟨"addr1", "l", "f", "e", "i", "c"⟩])],
         [("u", [("p", ⟨"p", 2⟩)])], []⟩).2
      = ⟨[("p", ⟨"p", "i", "n", 1, 10, false⟩)],
         [("u", [⟨"addr1", "l", "f", "e", "i", "c"⟩])],
         [("u", [("p", ⟨"p", 2⟩)])], []⟩ := by
  have h := makeNewOrder_empty_cart_guard "u" "oid" 3 ⟨"card", "addr1"⟩
    ⟨[("p", ⟨"p", "i", "n", 1, 10, false⟩)],
     [("u", [⟨"addr1", "l", "f", "e", "i", "c"⟩])],
     [("u", [("p", ⟨"p", 2⟩)])], []⟩
    ⟨"addr1", "l", "f", "e", "i", "c"⟩ rfl (by decide)
  exact ⟨h.1, h.2.1⟩
/-- C7: for a user with N stored transactions and page size P ≥ 1, every
response `GetTransactions` returns carries `totalPages = ceil(N / P)`, and
every 1-based page number past the end — any `page > totalPages` — yields
an empty date-grouped mapping together with that same `totalPages`. -/
theorem getTransactions_pagination
    (u : String) (pageSize : Int) (ws : WalletState) (l : List Transaction)
    (hl : lookupKey u ws.transactions = some l) (hP : 1 ≤ pageSize) :
    (∀ (page : Int) (r : TransactionsResponse),
        GetTransactions u page pageSize ws = some r →
        r.totalPages = totalPagesCalc l.length pageSize) ∧
    (∀ page : Int, totalPagesCalc l.length pageSize < page →
        GetTransactions u page pageSize ws
          = some { currentPage := page,
                   totalPages := totalPagesCalc l.length pageSize,
                   data := [] }) := by
  constructor
  · intro page r h
    simp only [GetTransactions, hl, List.length_mergeSort] at h
    by_cases h1 : (l.length : Int) ≤ (page - 1) * pageSize
    · rw [if_pos h1] at h
      obtain rfl := Option.some.inj h
      rfl
    · rw [if_neg h1] at h
      by_cases h2 : (page - 1) * pageSize < 0 ∨
          (if (l.length : Int) < (page - 1) * pageSize + pageSize then (l.length : Int)
           else (page - 1) * pageSize + pageSize) < (page - 1) * pageSize
      · rw [if_pos h2] at h
        exact Option.noConfusion h
      · rw [if_neg h2] at h
        obtain rfl := Option.some.inj h
        rfl
  · intro page hpage
    have hP0 : (0 : Int) < pageSize := by omega
    have hmul : (l.length : Int) ≤ totalPagesCalc l.length pageSize * pageSize := by
      unfold totalPagesCalc
      rw [if_pos hP0]
      have h2 := Int.ediv_add_emod (-(l.length : Int)) pageSize
      have h3 := Int.emod_nonneg (-(l.length : Int)) (by omega : pageSize ≠ 0)
      nlinarith [h2, h3]
    have hstart : (l.length : Int) ≤ (page - 1) * pageSize := by
      have h4 : totalPagesCalc l.length pageSize * pageSize ≤ (page - 1) * pageSize :=
        mul_le_mul_of_nonneg_right (by omega) (by omega)
      omega
    simp only [GetTransactions, hl, List.length_mergeSort]
    rw [if_pos hstart]

theorem getTransactions_pagination_witness :
    GetTransactions "u" 3 2
        ⟨[], [("u", [⟨5, "a", 0, ""⟩, ⟨6, "b", 1, ""⟩, ⟨7, "c", 2, ""⟩])], [], []⟩
      = some { currentPage := 3, totalPages := 2, data := [] } := by
  have h := getTransactions_pagination "u" 2
    ⟨[], [("u", [⟨5, "a", 0, ""⟩, ⟨6, "b", 1, ""⟩, ⟨7, "c", 2, ""⟩])], [], []⟩
    [⟨5, "a", 0, ""⟩, ⟨6, "b", 1, ""⟩, ⟨7, "c", 2, ""⟩] rfl (by decide)
  exact h.2 3 (by decide)

/-- C10: `GetTransactions` does not validate its paging arguments: with any
`page ≤ 0`, `pageSize ≥ 1` and a user whose transaction log is non-empty,
the computed slice start `(page − 1) * pageSize` is negative, the only
bounds guard (`start >= totalTransactions`) does not catch it, and the Go
slice expression `userTransactions[start:end]` is evaluated with a negative
start — the runtime panic modelled by the `none` result. -/
theorem getTransactions_nonpositive_page_out_of_bounds
    (u : String) (page pageSize : Int) (ws : WalletState) (l : List Transaction)
    (hl : lookupKey u ws.transactions = some l) (hne : l ≠ [])
    (hpage : page ≤ 0) (hP : 1 ≤ pageSize) :
    (page - 1) * pageSize < 0 ∧
    ¬ ((l.length : Int) ≤ (page - 1) * pageSize) ∧
    GetTransactions u page pageSize ws = none := by
  have hneg : (page - 1) * pageSize < 0 := by
    have h1 : page - 1 ≤ -1 := by omega
    have h2 := mul_le_mul_of_nonneg_right h1 (by omega : (0 : Int) ≤ pageSize)
    omega
  have hlen : 0 < (l.length : Int) := by
    have := List.length_pos.mpr hne
    omega
  refine ⟨hneg, by omega, ?_⟩
  simp only [GetTransactions, hl, List.length_mergeSort]
  rw [if_neg (by omega), if_pos (Or.inl hneg)]

theorem getTransactions_nonpositive_page_witness :
    GetTransactions "u" 0 1 ⟨[], [("u", [⟨5, "t", 0, ""⟩])], [], []⟩ = none :=
  (getTransactions_nonpositive_page_out_of_bounds "u" 0 1
    ⟨[], [("u", [⟨5, "t", 0, ""⟩])], [], []⟩ [⟨5, "t", 0, ""⟩]
    rfl (by decide) (by decide) (by decide)).2.2
/-- C8 counterexample: `RemoveItem` first consults the product catalog, so
for a `productID` that does not exist there — a product for which the cart
certainly holds no line item — it returns a `NotFound` error, not the
claimed quantity 0 with no error. -/
theorem removeItem_nonexistent_product_is_error :
    cartQuantity [] "u" "p" = none ∧
    (RemoveItem "u" "p" [] []).1 = Except.error ErrKind.notFound :=
  ⟨rfl, rfl⟩

/-- C8 (amended): for every product that exists in the catalog and for
which the user's cart holds no line item, `RemoveItem` returns quantity 0
with no error and changes no cart line of any user (the only possible
structural change is materialising an empty cart map for the user). -/
theorem removeItem_missing_line_noop
    (u p : String) (products : List (String × Product)) (carts : CartMap)
    (pr : Product) (hp : lookupKey p products = some pr)
    (hnone : lookupKey p ((lookupKey u carts).getD []) = none) :
    (RemoveItem u p products carts).1 = Except.ok 0 ∧
    ∀ u2 p2, cartQuantity (RemoveItem u p products carts).2 u2 p2
      = cartQuantity carts u2 p2 := by
  cases hu : lookupKey u carts with
  | some c =>
    have hc : lookupKey p c = none := by simpa [hu] using hnone
    constructor
    · simp [RemoveItem, hp, hu, hc]
    · intro u2 p2
      simp [RemoveItem, hp, hu, hc]
  | none =>
    constructor
    · simp [RemoveItem, hp, hu, lookupKey_updateKey_self, lookupKey]
    · intro u2 p2
      by_cases hu2 : u2 = u
      · subst hu2
        simp [RemoveItem, hp, hu, cartQuantity, lookupKey_updateKey_self, lookupKey]
      · simp [RemoveItem, hp, hu, cartQuantity, lookupKey, lookupKey_updateKey_self,
          lookupKey_updateKey_ne _ _ _ _ hu2]

theorem removeItem_missing_line_noop_witness :
    (RemoveItem "u" "p" [("p", ⟨"p", "i", "n", 1, 10, true⟩)] []).1 = Except.ok 0 ∧
    cartQuantity (RemoveItem "u" "p" [("p", ⟨"p", "i", "n", 1, 10, true⟩)] []).2 "u" "p"
      = cartQuantity [] "u" "p" := by
  have h := removeItem_missing_line_noop "u" "p"
    [("p", ⟨"p", "i", "n", 1, 10, true⟩)] [] ⟨"p", "i", "n", 1, 10, true⟩ rfl rfl
  exact ⟨h.1, h.2 "u" "p"⟩
theorem getCart_foldl_spec (products : List (String × Product)) :
    ∀ (cart : List (String × CartItem)) (acc : CartResponse),
      (cart.foldl (getCartStep products) acc).items
        = acc.items ++ cart.filterMap (fun e => (getCartResponseItem products e.2).toOption) ∧
      (cart.foldl (getCartStep products) acc).orderPrice
        = acc.orderPrice
          + (((cart.filterMap (fun e => (getCartResponseItem products e.2).toOption)).filter
              (fun i => i.available)).map (fun i => i.price * i.quantity)).sum ∧
      (cart.foldl (getCartStep products) acc).totalItems
        = acc.totalItems
          + (((cart.filterMap (fun e => (getCartResponseItem products e.2).toOption)).filter
              (fun i => i.available)).map (fun i => i.quantity)).sum ∧
      (cart.foldl (getCartStep products) acc).deliveryPrice = acc.deliveryPrice ∧
      (cart.foldl (getCartStep products) acc).deliveryTime = acc.deliveryTime
  | [], acc => by simp
  | e :: rest, acc => by
    obtain ⟨ih1, ih2, ih3, ih4, ih5⟩ :=
      getCart_foldl_spec products rest (getCartStep products acc e)
    cases hre : getCartResponseItem products e.2 with
    | error err =>
      have hstep : getCartStep products acc e = acc := by simp [getCartStep, hre]
      rw [hstep] at ih1 ih2 ih3 ih4 ih5
      simp [hstep, ih1, ih2, ih3, ih4, ih5, List.filterMap_cons, hre, Except.toOption]
    | ok ri =>
      by_cases hav : ri.available
      · have hstep : getCartStep products acc e
            = { acc with orderPrice := acc.orderPrice + ri.price * ri.quantity,
                         totalItems := acc.totalItems + ri.quantity,
                         items := acc.items ++ [ri] } := by
          simp [getCartStep, hre, hav]
        rw [hstep] at ih1 ih2 ih3 ih4 ih5
        simp [List.foldl_cons, hstep, List.filterMap_cons, hre, Except.toOption,
          List.filter_cons, hav, ih1, ih2, ih3, ih4, ih5, List.append_assoc, add_assoc]
      · have hstep : getCartStep products acc e
            = { acc with items := acc.items ++ [ri] } := by
          simp [getCartStep, hre, hav]
        rw [hstep] at ih1 ih2 ih3 ih4 ih5
        simp [List.foldl_cons, hstep, List.filterMap_cons, hre, Except.toOption,
          List.filter_cons, hav, ih1, ih2, ih3, ih4, ih5, List.append_assoc, add_assoc]

/-- C9: `GetCart` lists every line item whose product resolves — available
or not — while only available items contribute to `orderPrice` and
`totalItems`; a line item whose product lookup fails is skipped without
failing the call (the `items` characterisation drops exactly the lines whose
lookup errors, and `GetCart` is total). -/
theorem getCart_partial_failure_policy (u : String)
    (products : List (String × Product)) (carts : CartMap) :
    (GetCart u products carts).items
      = ((lookupKey u carts).getD []).filterMap
          (fun e => (getCartResponseItem products e.2).toOption) ∧
    (GetCart u products carts).orderPrice
      = ((((GetCart u products carts).items).filter (fun i => i.available)).map
          (fun i => i.price * i.quantity)).sum ∧
    (GetCart u products carts).totalItems
      = ((((GetCart u products carts).items).filter (fun i => i.available)).map
          (fun i => i.quantity)).sum ∧
    (∀ e ∈ (lookupKey u carts).getD [], ∀ ri,
      getCartResponseItem products e.2 = Except.ok ri →
        ri ∈ (GetCart u products carts).items) := by
  obtain ⟨h1, h2, h3, h4, h5⟩ := getCart_foldl_spec products ((lookupKey u carts).getD [])
    { deliveryTime := 15, orderPrice := 0, deliveryPrice := 150,
      totalPrice := 0, totalItems := 0, items := [] }
  have hitems : (GetCart u products carts).items
      = ((lookupKey u carts).getD []).filterMap
          (fun e => (getCartResponseItem products e.2).toOption) := by
    simpa [GetCart] using h1
  refine ⟨hitems, ?_, ?_, ?_⟩
  · rw [hitems]
    simpa [GetCart] using h2
  · rw [hitems]
    simpa [GetCart] using h3
  · intro e he ri hri
    rw [hitems]
    exact List.mem_filterMap.mpr ⟨e, he, by simp [hri, Except.toOption]⟩

theorem getCart_partial_failure_policy_witness :
    (GetCart "u" [("p1", ⟨"p1", "i1", "n1", 3, 10, true⟩), ("p2", ⟨"p2", "i2", "n2", 5, 20, false⟩)]
        [("u", [("p1", ⟨"p1", 2⟩), ("p2", ⟨"p2", 1⟩), ("p3", ⟨"p3", 4⟩)])]).items
      = (((lookupKey "u" ([("u", [("p1", ⟨"p1", 2⟩), ("p2", ⟨"p2", 1⟩), ("p3", ⟨"p3", 4⟩)])] : CartMap)).getD []).filterMap
          (fun e => (getCartResponseItem
            [("p1", ⟨"p1", "i1", "n1", 3, 10, true⟩), ("p2", ⟨"p2", "i2", "n2", 5, 20, false⟩)]
            e.2).toOption)) ∧
    (⟨"p2", "i2", "n2", 5, 20, 1, false⟩ : CartResponseItem)
      ∈ (GetCart "u" [("p1", ⟨"p1", "i1", "n1", 3, 10, true⟩), ("p2", ⟨"p2", "i2", "n2", 5, 20, false⟩)]
          [("u", [("p1", ⟨"p1", 2⟩), ("p2", ⟨"p2", 1⟩), ("p3", ⟨"p3", 4⟩)])]).items := by
  have h := getCart_partial_failure_policy "u"
    [("p1", ⟨"p1", "i1", "n1", 3, 10, true⟩), ("p2", ⟨"p2", "i2", "n2", 5, 20, false⟩)]
    [("u", [("p1", ⟨"p1", 2⟩), ("p2", ⟨"p2", 1⟩), ("p3", ⟨"p3", 4⟩)])]
  exact ⟨h.1, h.2.2.2 ("p2", ⟨"p2", 1⟩) (by simp [lookupKey]) ⟨"p2", "i2", "n2", 5, 20, 1, false⟩ rfl⟩

end EatAndPay
